import Mathlib

/-!
Verification of the 4U booking backend (`src/app.py`).

The development shallowly embeds the Flask route handlers as pure Lean
functions over an explicit `Store` (the SQLite file `business.db` with its
three tables).  Python strings are modelled by Lean `String`; the Python
string operations used by the code (`str.strip`, `str.startswith`, `len`,
`str.replace`) are embedded as structural functions over `String.data` so
that concrete instances evaluate by kernel reduction.  JSON fields that may
be absent are `Option` values; Python truthiness of the values the handlers
test is made explicit (`pyTruthyStr`, `pyTruthyInt`).  Randomness
(`uuid.uuid4()`), the clock (`datetime.utcnow()`) and the environment
(`os.getenv`) are passed in as oracle parameters.  The Twilio provider is an
oracle recording whether it is configured and whether each `messages.create`
call is accepted (`TwilioEnv`).  An unhandled Python exception propagating
out of a handler (HTTP 500) is the `Resp.crash` outcome; in particular an
`INSERT` violating a `PRIMARY KEY` constraint raises
`sqlite3.IntegrityError`, and subscripting `None` raises `TypeError`, both
unhandled by the source.
-/

namespace FourU

/-- Python `s.strip()` (app.py lines 154-157): drop whitespace from both
ends of the string.  Embedded structurally over the character list. -/
def pyStrip (s : String) : String :=
  String.mk (((s.data.dropWhile Char.isWhitespace).reverse.dropWhile Char.isWhitespace).reverse)

/-- Helper for `strStarts`: the first list is an initial segment of the
second. -/
def charsPrefixOf : List Char → List Char → Bool
  | [], _ => true
  | _ :: _, [] => false
  | a :: as, b :: bs => if a = b then charsPrefixOf as bs else false

/-- Python `s.startswith(p)` (app.py lines 206, 208), embedded
structurally. -/
def strStarts (s p : String) : Bool := charsPrefixOf p.data s.data

/-- Python `len(s)` for a string (app.py line 208): number of characters. -/
def strLen (s : String) : Nat := s.data.length

/-- Python `text.replace("\n", "%0A")` (app.py line 187), specialised to
that call: rewrite every newline character to the three characters `%0A`. -/
def replaceNewlines : List Char → List Char
  | [] => []
  | c :: cs => if c = '\n' then '%' :: '0' :: 'A' :: replaceNewlines cs else c :: replaceNewlines cs

/-- String form of `replaceNewlines`. -/
def encodeNewlines (s : String) : String := String.mk (replaceNewlines s.data)

/-- Python truthiness of a JSON field holding a string or absent (`None`):
absent and the empty string are falsy. -/
def pyTruthyStr : Option String → Bool
  | none => false
  | some s => if s = "" then false else true

/-- Python truthiness of a JSON field holding an integer or absent:
absent and `0` are falsy. -/
def pyTruthyInt : Option Int → Bool
  | none => false
  | some n => if n = 0 then false else true

/-- A row of the `services` table (app.py lines 30-38). -/
structure Service where
  id : Int
  key : String
  title : String
  description : String
  starting_price : String
deriving DecidableEq

/-- A row of the `bookings` table (app.py lines 41-53).  `assigned_to` is a
nullable TEXT column. -/
structure Booking where
  id : String
  name : String
  phone : String
  address : String
  pincode : String
  service_id : Int
  status : String
  assigned_to : Option String
  created_at : String
deriving DecidableEq

/-- A row of the `technicians` table (app.py lines 56-66).  `name` and
`phone` are nullable: `admin_techs` inserts `data.get("name")` and
`data.get("phone")`, which are `None` when the JSON body omits them. -/
structure Technician where
  id : String
  name : Option String
  phone : Option String
  areas_csv : String
  services_csv : String
  owner_name : String
  created_at : String
deriving DecidableEq

/-- The persistent store: the three tables of `business.db`. -/
structure Store where
  services : List Service
  bookings : List Booking
  technicians : List Technician
deriving DecidableEq

/-- The service catalog seeded by `init_db` when the `services` table is
empty (app.py lines 71-80); AUTOINCREMENT assigns ids 1..6 in insertion
order.  The price strings appear mojibake-encoded in the source file; they
are rendered here as the intended rupee amounts. -/
def seed_services : List Service :=
  [ { id := 1, key := "ac_clean", title := "AC Cleaning & Servicing",
      description := "Filter wash, coil clean, water drain & basic check", starting_price := "₹399" },
    { id := 2, key := "wm_clean", title := "Washing Machine Cleaning",
      description := "Drum sanitization & pipe check", starting_price := "₹399" },
    { id := 3, key := "fridge_clean", title := "Fridge Cleaning",
      description := "Coil clean, gasket check, cooling basic check", starting_price := "₹349" },
    { id := 4, key := "chimney_clean", title := "Chimney Deep Clean",
      description := "Degrease filters, motor check", starting_price := "₹699" },
    { id := 5, key := "geyser", title := "Geyser Repair & Service",
      description := "Heating & thermostat checks", starting_price := "₹249" },
    { id := 6, key := "microwave", title := "Microwave Repair & Service",
      description := "Heating element, magnetron check, door & control fix", starting_price := "₹299" } ]

/-- The store right after `init_db()` runs on a fresh database (app.py
line 86): seeded services, no bookings, no technicians. -/
def init_store : Store :=
  { services := seed_services, bookings := [], technicians := [] }

/-- Outcome of one HTTP handler: a 200 payload, an error response
`(status, error-string)` rendered as `{ok:false, error}`, or an unhandled
Python exception propagating out of the handler (HTTP 500). -/
inductive Resp (α : Type) where
  | ok : α → Resp α
  | err : Nat → String → Resp α
  | crash : Resp α
deriving DecidableEq

/-- `req.headers.get("x-admin-token") or request.args.get("token")`
(app.py line 125): the header value when it is truthy (present and
non-empty), otherwise the query parameter. -/
def presentedToken (header query : Option String) : Option String :=
  match header with
  | some h => if h = "" then query else some h
  | none => query

/-- `check_admin_token` (app.py lines 124-126): the presented token must be
truthy and equal to the configured `ADMIN_TOKEN` value. -/
def check_admin_token (header query : Option String) (adminToken : String) : Bool :=
  match presentedToken header query with
  | none => false
  | some t => if t = "" then false else if t = adminToken then true else false

/-- The Twilio environment and provider oracle: whether `twilio_client` was
constructed (app.py lines 98-103), the `TWILIO_WHATSAPP_FROM` and
`BRAND_LOGO_URL` settings, and whether the provider accepts each of the two
`messages.create` calls made by `create_booking`. -/
structure TwilioEnv where
  configured : Bool
  whatsappFrom : String
  brandLogoUrl : String
  sendOutcome1 : Bool
  sendOutcome2 : Bool
deriving DecidableEq

/-- `send_whatsapp_via_twilio` (app.py lines 105-122): returns `False`
when no client is configured; otherwise attempts the provider call and
returns `True` on acceptance, `False` when the call raises (the exception
is caught and logged).  The destination, body and media arguments do not
influence the modelled outcome beyond the provider oracle. -/
def send_whatsapp_via_twilio (tw : TwilioEnv) (to_number text : String)
    (media_url : Option String) (providerAccepts : Bool) : Bool :=
  if tw.configured = true then providerAccepts else false

/-- The JSON body accepted by `POST /api/book` (app.py lines 153-158). -/
structure BookInput where
  name : Option String
  phone : Option String
  address : Option String
  pincode : Option String
  service_id : Option Int
deriving DecidableEq

/-- The 200 payload of `POST /api/book` (app.py line 225). -/
structure BookPayload where
  id : String
  wa_link : String
  twilio_sent : Bool
deriving DecidableEq

/-- Destination normalisation inlined in `create_booking` (app.py lines
204-212): a number with a leading `+` is used as given; else a number
starting with `91` of length at least 10 gets a `+` prepended; otherwise
`+91` is prepended; the result carries the `whatsapp:` scheme. -/
def normalize_user_to (user_phone_raw : String) : String :=
  if strStarts user_phone_raw "+" = true then
    "whatsapp:" ++ user_phone_raw
  else if strStarts user_phone_raw "91" = true ∧ 10 ≤ strLen user_phone_raw then
    "whatsapp:+" ++ user_phone_raw
  else
    "whatsapp:+91" ++ user_phone_raw

/-- The admin deep-link message body built by `create_booking` (app.py
lines 178-186). -/
def booking_wa_text (bid name phone address pincode : String) (service_id : Int) : String :=
  "🔔 NEW BOOKING\n\n" ++ "Job ID: " ++ bid ++ "\n" ++ "Name: " ++ name ++ "\n"
    ++ "Phone: " ++ phone ++ "\n" ++ "Service ID: " ++ toString service_id ++ "\n"
    ++ "Address: " ++ address ++ "\n" ++ "Pincode: " ++ pincode ++ "\n"

/-- First automated message sent to the customer (app.py lines 196-199). -/
def msg_confirmation : String :=
  "✅ Your service is booked via 4U.\n"
    ++ "For safety & 7-day guarantee, please communicate only through this number."

/-- Second automated message sent to the customer (app.py line 201). -/
def msg_job_id (bid : String) : String :=
  "📋 Your service (Job ID: " ++ bid ++ ") is recorded. If any issue arises, reply here."

/-- The row inserted by `create_booking` on success (app.py lines 163-171):
stripped fields, fresh prefixed id, status `received`, no assignee. -/
def new_booking (inp : BookInput) (uuid8 now : String) : Booking :=
  { id := "4U-" ++ uuid8, name := pyStrip (inp.name.getD ""),
    phone := pyStrip (inp.phone.getD ""), address := pyStrip (inp.address.getD ""),
    pincode := pyStrip (inp.pincode.getD ""), service_id := inp.service_id.getD 0,
    status := "received", assigned_to := none, created_at := now }

/-- The admin deep-link built by `create_booking` (app.py lines 176-188):
empty when `ADMIN_WHATSAPP` is unset, otherwise a `wa.me` URL embedding the
newline-encoded message. -/
def book_wa_link (inp : BookInput) (uuid8 adminWh : String) : String :=
  if adminWh = "" then ""
  else
    "https://wa.me/" ++ adminWh ++ "?text=" ++
      encodeNewlines (booking_wa_text ("4U-" ++ uuid8) (pyStrip (inp.name.getD ""))
        (pyStrip (inp.phone.getD "")) (pyStrip (inp.address.getD ""))
        (pyStrip (inp.pincode.getD "")) (inp.service_id.getD 0))

/-- The `twilio_sent` flag computed by `create_booking` (app.py lines
190-223): `false` unless both a client and a sending address are
configured, in which case the two customer messages are attempted and the
flag is `sent1 or sent2`; every provider failure is swallowed into
`false`. -/
def book_twilio_sent (inp : BookInput) (uuid8 : String) (tw : TwilioEnv) : Bool :=
  if tw.configured = true ∧ ¬ tw.whatsappFrom = "" then
    let user_to := normalize_user_to (pyStrip (inp.phone.getD ""))
    let media := if tw.brandLogoUrl = "" then none else some tw.brandLogoUrl
    let sent1 := send_whatsapp_via_twilio tw user_to msg_confirmation media tw.sendOutcome1
    let sent2 := send_whatsapp_via_twilio tw user_to (msg_job_id ("4U-" ++ uuid8)) none tw.sendOutcome2
    sent1 || sent2
  else false

/-- `create_booking`, the handler of `POST /api/book` (app.py lines
151-225).  Parameters beyond the JSON body: `uuid8` is the first eight
characters of `str(uuid.uuid4())`, `now` the UTC timestamp, `adminWh` the
`ADMIN_WHATSAPP` setting, `tw` the Twilio environment.  The `INSERT` into
`bookings` raises on a duplicate primary key (unhandled, `Resp.crash`);
otherwise the row is committed before any notification work, the admin
deep-link is built (`book_wa_link`), and the automated sends are attempted
with every failure swallowed into the `twilio_sent` boolean
(`book_twilio_sent`). -/
def create_booking (inp : BookInput) (uuid8 now adminWh : String) (tw : TwilioEnv)
    (st : Store) : Resp BookPayload × Store :=
  let name := pyStrip (inp.name.getD "")
  let phone := pyStrip (inp.phone.getD "")
  let address := pyStrip (inp.address.getD "")
  let pincode := pyStrip (inp.pincode.getD "")
  if name = "" ∨ phone = "" ∨ address = "" ∨ pincode = "" ∨ pyTruthyInt inp.service_id = false then
    (Resp.err 400 "Missing fields", st)
  else
    let bid := "4U-" ++ uuid8
    if (st.bookings.find? (fun b => decide (b.id = bid))).isSome then
      (Resp.crash, st)
    else
      (Resp.ok { id := bid, wa_link := book_wa_link inp uuid8 adminWh,
                 twilio_sent := book_twilio_sent inp uuid8 tw },
       { st with bookings := st.bookings ++ [new_booking inp uuid8 now] })

/-- A row returned by `GET /admin/bookings`: the booking LEFT JOINed with
the matching service title as `service_name` (app.py lines 233-235). -/
structure BookingRow where
  booking : Booking
  service_name : Option String
deriving DecidableEq

/-- Insert into a list kept in descending `key` order: the element goes in
front of the first entry whose key is not larger. -/
def insertDescBy {α : Type} (key : α → String) (x : α) : List α → List α
  | [] => [x]
  | y :: ys => if key y ≤ key x then x :: y :: ys else y :: insertDescBy key x ys

/-- `ORDER BY created_at DESC` on a string column, as an insertion sort. -/
def sortDescBy {α : Type} (key : α → String) : List α → List α
  | [] => []
  | x :: xs => insertDescBy key x (sortDescBy key xs)

/-- `admin_bookings`, the handler of `GET /admin/bookings` (app.py lines
228-237): token gate, then the join of bookings with service titles,
newest first. -/
def admin_bookings (header query : Option String) (adminToken : String)
    (st : Store) : Resp (List BookingRow) × Store :=
  if check_admin_token header query adminToken = false then
    (Resp.err 401 "Unauthorized", st)
  else
    let rows := st.bookings.map (fun b =>
      { booking := b,
        service_name := (st.services.find? (fun s => decide (s.id = b.service_id))).map (fun s => s.title) })
    (Resp.ok (sortDescBy (fun r => r.booking.created_at) rows), st)

/-- The JSON body accepted by `POST /admin/technicians` (app.py line 249):
every field optional, `areas_csv`, `services_csv` and `owner_name`
defaulting to the empty string, `name` and `phone` defaulting to `None`. -/
structure TechInput where
  name : Option String
  phone : Option String
  areas_csv : Option String
  services_csv : Option String
  owner_name : Option String
deriving DecidableEq

/-- The POST branch of `admin_techs` (app.py lines 239-253): token gate,
fresh full-uuid id, unvalidated insert of the body fields, `{ok, id}`
response.  A duplicate generated id would violate the primary key and raise
(unhandled). -/
def admin_techs_post (header query : Option String) (adminToken : String)
    (inp : TechInput) (uuid now : String) (st : Store) : Resp String × Store :=
  if check_admin_token header query adminToken = false then
    (Resp.err 401 "Unauthorized", st)
  else if (st.technicians.find? (fun t => decide (t.id = uuid))).isSome then
    (Resp.crash, st)
  else
    let t : Technician :=
      { id := uuid, name := inp.name, phone := inp.phone,
        areas_csv := inp.areas_csv.getD "", services_csv := inp.services_csv.getD "",
        owner_name := inp.owner_name.getD "", created_at := now }
    (Resp.ok uuid, { st with technicians := st.technicians ++ [t] })

/-- The GET branch of `admin_techs` (app.py lines 239-256): token gate,
then the technician list newest first. -/
def admin_techs_get (header query : Option String) (adminToken : String)
    (st : Store) : Resp (List Technician) × Store :=
  if check_admin_token header query adminToken = false then
    (Resp.err 401 "Unauthorized", st)
  else
    (Resp.ok (sortDescBy (fun t => t.created_at) st.technicians), st)

/-- The booking update applied by `admin_assign` (app.py line 268):
`UPDATE bookings SET status='assigned', assigned_to=tid WHERE id=bid`. -/
def assign_update (tid : String) (b : Booking) : Booking :=
  { b with status := "assigned", assigned_to := some tid }

/-- The technician deep-link message body built by `admin_assign`
(app.py line 276); the `%0A` separators are literal in the source. -/
def technician_wa_text (b : Booking) : String :=
  "New job:%0ABooking:" ++ b.id ++ "%0AName:" ++ b.name ++ "%0APhone:" ++ b.phone
    ++ "%0AAddress:" ++ b.address

/-- The bookings table after the `UPDATE ... WHERE id=bid` of
`admin_assign` (app.py lines 268-269): every row whose id matches gets
`assign_update` applied; all other rows are untouched. -/
def assigned_bookings (bid tid : String) (l : List Booking) : List Booking :=
  l.map (fun b => if b.id = bid then assign_update tid b else b)

/-- Lines 272-277 of app.py, after the booking re-fetch succeeded: look up
the technician in the (unchanged) technicians table, degrade a missing
technician or a null technician phone to the empty string, and build the
technician deep-link (empty when there is no phone to address). -/
def assign_wa_link (st : Store) (b : Booking) (tid : String) : String :=
  let t := st.technicians.find? (fun tech => decide (tech.id = tid))
  let tech_phone :=
    match t with
    | none => ""
    | some tech => tech.phone.getD ""
  if tech_phone = "" then "" else "https://wa.me/" ++ tech_phone ++ "?text=" ++ technician_wa_text b

/-- `admin_assign`, the handler of `POST /admin/assign` (app.py lines
258-278): token gate; 400 when either id is falsy; then the unconditional
`UPDATE ... WHERE id=booking_id` is committed (`assigned_bookings`), the
booking is re-fetched (`b['id']` on a `None` fetch raises `TypeError`,
unhandled: `Resp.crash`), and the technician deep-link is built
(`assign_wa_link`). -/
def admin_assign (header query : Option String) (adminToken : String)
    (booking_id technician_id : Option String) (st : Store) : Resp String × Store :=
  if check_admin_token header query adminToken = false then
    (Resp.err 401 "Unauthorized", st)
  else if pyTruthyStr booking_id = false ∨ pyTruthyStr technician_id = false then
    (Resp.err 400 "Missing fields", st)
  else
    let bid := booking_id.getD ""
    let tid := technician_id.getD ""
    let st2 : Store := { st with bookings := assigned_bookings bid tid st.bookings }
    match st2.bookings.find? (fun b => decide (b.id = bid)) with
    | none => (Resp.crash, st2)
    | some b => (Resp.ok (assign_wa_link st2 b tid), st2)

/-- One call to `POST /api/book`: the JSON body plus the per-request
oracles (uuid characters, timestamp, `ADMIN_WHATSAPP`, Twilio state). -/
structure BookCall where
  input : BookInput
  uuid8 : String
  now : String
  adminWh : String
  tw : TwilioEnv
deriving DecidableEq

/-- Run a sequence of `POST /api/book` requests against a store, returning
the list of responses and the final store. -/
def runBookings : List BookCall → Store → List (Resp BookPayload) × Store
  | [], st => ([], st)
  | c :: cs, st =>
    let r := create_booking c.input c.uuid8 c.now c.adminWh c.tw st
    let rest := runBookings cs r.2
    (r.1 :: rest.1, rest.2)

/-- The ids of the bookings held in the store. -/
def bookingIds (st : Store) : List String := st.bookings.map (fun b => b.id)

/-- The booking ids carried by the successful responses of a run. -/
def okIds (rs : List (Resp BookPayload)) : List String :=
  rs.filterMap (fun r => match r with | Resp.ok p => some p.id | _ => none)

/-- The store states reachable from a fresh database through the mutating
handlers of the HTTP surface (booking creation, assignment, technician
creation; the remaining handlers never write). -/
inductive Reachable : Store → Prop where
  | init : Reachable init_store
  | book (inp : BookInput) (uuid8 now adminWh : String) (tw : TwilioEnv) {st : Store} :
      Reachable st → Reachable (create_booking inp uuid8 now adminWh tw st).2
  | assign (header query : Option String) (adminToken : String)
      (booking_id technician_id : Option String) {st : Store} :
      Reachable st → Reachable (admin_assign header query adminToken booking_id technician_id st).2
  | tech (header query : Option String) (adminToken : String)
      (inp : TechInput) (uuid now : String) {st : Store} :
      Reachable st → Reachable (admin_techs_post header query adminToken inp uuid now st).2

/-- Modelled from the spec: the destination normalisation policy exactly as
claim C7 words it, with no length condition in the country-code branch.
Used only to compare with `normalize_user_to`, the policy of the source. -/
def normalize_user_to_claimC7 (p : String) : String :=
  if strStarts p "+" = true then "whatsapp:" ++ p
  else if strStarts p "91" = true then "whatsapp:+" ++ p
  else "whatsapp:+91" ++ p

/-- A Twilio environment with no configured client. -/
def twOff : TwilioEnv :=
  { configured := false, whatsappFrom := "", brandLogoUrl := "", sendOutcome1 := false,
    sendOutcome2 := false }

/-- A valid booking body used in concrete witnesses. -/
def exInput : BookInput :=
  { name := some "A", phone := some "9", address := some "X", pincode := some "1",
    service_id := some 1 }

/-- The store after one valid booking on a fresh database. -/
def exSt1 : Store := (create_booking exInput "aaaa0001" "t0" "" twOff init_store).2

/-- `exSt1` after an authorised assignment of the booking to the
non-existent technician id `ghost`. -/
def exSt2 : Store :=
  (admin_assign (some "sek") none "sek" (some "4U-aaaa0001") (some "ghost") exSt1).2

/-- Whether a response is a 200 success. -/
def isOk {α : Type} : Resp α → Bool
  | Resp.ok _ => true
  | _ => false

/-- Two concrete valid booking calls with distinct generated uuids. -/
def exCalls : List BookCall :=
  [ { input := exInput, uuid8 := "aaaa0001", now := "t0", adminWh := "", tw := twOff },
    { input := exInput, uuid8 := "aaaa0002", now := "t1", adminWh := "", tw := twOff } ]

example : (create_booking exInput "aaaa0001" "t0" "" twOff init_store).1
    = Resp.ok { id := "4U-aaaa0001", wa_link := "", twilio_sent := false } := by decide

example : exSt1.bookings =
    [ { id := "4U-aaaa0001", name := "A", phone := "9", address := "X", pincode := "1",
        service_id := 1, status := "received", assigned_to := none, created_at := "t0" } ] := by
  decide

example : exSt2.bookings =
    [ { id := "4U-aaaa0001", name := "A", phone := "9", address := "X", pincode := "1",
        service_id := 1, status := "assigned", assigned_to := some "ghost", created_at := "t0" } ] := by
  decide

example : exSt2.technicians = [] := by decide

example : (admin_assign (some "sek") none "sek" (some "nope") (some "T1") init_store).1
    = Resp.crash := by decide

example : normalize_user_to "9112345" = "whatsapp:+919112345" := by decide

example : normalize_user_to_claimC7 "9112345" = "whatsapp:+9112345" := by decide

/-! ## Helper lemmas -/

/-- A booking-table search for an id that no row carries returns nothing. -/
lemma find_booking_none (l : List Booking) (bid : String)
    (h : ∀ b ∈ l, b.id ≠ bid) :
    l.find? (fun b => decide (b.id = bid)) = none := by
  rw [List.find?_eq_none]
  intro b hb
  simp [h b hb]

/-- A technician-table search for an id that no row carries returns
nothing. -/
lemma find_tech_none (l : List Technician) (tid : String)
    (h : ∀ t ∈ l, t.id ≠ tid) :
    l.find? (fun t => decide (t.id = tid)) = none := by
  rw [List.find?_eq_none]
  intro t ht
  simp [h t ht]

/-- When no row matches the id, the assignment `UPDATE` touches nothing. -/
lemma assigned_bookings_id (bid tid : String) (l : List Booking)
    (h : ∀ b ∈ l, b.id ≠ bid) :
    assigned_bookings bid tid l = l := by
  induction l with
  | nil => rfl
  | cons x xs ih =>
    simp only [assigned_bookings, List.map_cons] at ih ⊢
    rw [if_neg (h x (List.mem_cons_self x xs)), ih (fun b hb => h b (List.mem_cons_of_mem x hb))]

/-- When some row matches the id, re-fetching the id after the assignment
`UPDATE` finds a row, and that row carries the updated status and
assignee. -/
lemma find_assigned_bookings (l : List Booking) (bid tid : String)
    (h : ∃ b ∈ l, b.id = bid) :
    ∃ b2, (assigned_bookings bid tid l).find? (fun b => decide (b.id = bid)) = some b2
      ∧ b2.status = "assigned" ∧ b2.assigned_to = some tid ∧ b2.id = bid := by
  induction l with
  | nil => simp at h
  | cons x xs ih =>
    simp only [assigned_bookings, List.map_cons] at ih ⊢
    by_cases hx : x.id = bid
    · refine ⟨assign_update tid x, ?_, rfl, rfl, hx⟩
      rw [if_pos hx]
      exact List.find?_cons_of_pos _ (by simp [assign_update, hx])
    · have h2 : ∃ b ∈ xs, b.id = bid := by
        obtain ⟨b, hb, hbid⟩ := h
        rcases List.mem_cons.mp hb with rfl | hb2
        · exact absurd hbid hx
        · exact ⟨b, hb2, hbid⟩
      obtain ⟨b2, hf, hs, ha, hid⟩ := ih h2
      refine ⟨b2, ?_, hs, ha, hid⟩
      rw [if_neg hx, List.find?_cons_of_neg _ (by simp [hx])]
      exact hf

/-- Shape of a fully successful `admin_assign`: with a valid token, truthy
ids and an existing booking, the handler commits the update and answers
`200` with the technician deep-link computed over the updated store. -/
lemma admin_assign_success (header query : Option String) (adminToken : String)
    (booking_id technician_id : Option String) (st : Store)
    (hauth : check_admin_token header query adminToken = true)
    (hbid : pyTruthyStr booking_id = true)
    (htid : pyTruthyStr technician_id = true)
    (hexists : ∃ b ∈ st.bookings, b.id = booking_id.getD "") :
    ∃ b2, (assigned_bookings (booking_id.getD "") (technician_id.getD "") st.bookings).find?
        (fun b => decide (b.id = booking_id.getD "")) = some b2
      ∧ b2.status = "assigned" ∧ b2.assigned_to = some (technician_id.getD "")
      ∧ b2.id = booking_id.getD ""
      ∧ admin_assign header query adminToken booking_id technician_id st
        = (Resp.ok (assign_wa_link
              { st with bookings := assigned_bookings (booking_id.getD "") (technician_id.getD "") st.bookings }
              b2 (technician_id.getD "")),
           { st with bookings := assigned_bookings (booking_id.getD "") (technician_id.getD "") st.bookings }) := by
  obtain ⟨b2, hf, hs, ha, hid⟩ :=
    find_assigned_bookings st.bookings (booking_id.getD "") (technician_id.getD "") hexists
  refine ⟨b2, hf, hs, ha, hid, ?_⟩
  have h1 : ¬ (check_admin_token header query adminToken = false) := by rw [hauth]; simp
  have h2 : ¬ (pyTruthyStr booking_id = false ∨ pyTruthyStr technician_id = false) := by
    rw [hbid, htid]; simp
  simp only [admin_assign]
  rw [if_neg h1, if_neg h2]
  simp only [hf]

/-! ## Claim C3 -/

/-- C3: every `POST /api/book` request in which one of `name`, `phone`,
`address`, `pincode` is empty after stripping whitespace or absent, or
whose `service_id` is absent, is rejected with HTTP 400 and body
`{ok:false, error:"Missing fields"}`, and the store — in particular the
bookings table — is left unchanged. -/
theorem create_booking_missing_field_rejected
    (inp : BookInput) (uuid8 now adminWh : String) (tw : TwilioEnv) (st : Store)
    (h : pyStrip (inp.name.getD "") = "" ∨ pyStrip (inp.phone.getD "") = ""
      ∨ pyStrip (inp.address.getD "") = "" ∨ pyStrip (inp.pincode.getD "") = ""
      ∨ inp.service_id = none) :
    create_booking inp uuid8 now adminWh tw st = (Resp.err 400 "Missing fields", st) := by
  have hc : pyStrip (inp.name.getD "") = "" ∨ pyStrip (inp.phone.getD "") = ""
      ∨ pyStrip (inp.address.getD "") = "" ∨ pyStrip (inp.pincode.getD "") = ""
      ∨ pyTruthyInt inp.service_id = false := by
    rcases h with h | h | h | h | h
    · exact Or.inl h
    · exact Or.inr (Or.inl h)
    · exact Or.inr (Or.inr (Or.inl h))
    · exact Or.inr (Or.inr (Or.inr (Or.inl h)))
    · exact Or.inr (Or.inr (Or.inr (Or.inr (by rw [h]; rfl))))
  simp only [create_booking]
  rw [if_pos hc]

/-- Witness for C3 at a concrete input: a name that is all whitespace is
rejected and the fresh store is untouched. -/
theorem create_booking_missing_field_rejected_witness :
    create_booking
        { name := some "   ", phone := some "9", address := some "X", pincode := some "1",
          service_id := some 1 } "aaaa0001" "t0" "" twOff init_store
      = (Resp.err 400 "Missing fields", init_store) :=
  create_booking_missing_field_rejected _ "aaaa0001" "t0" "" twOff init_store
    (Or.inl (by decide))

/-! ## Claim C4 -/

/-- C4: every request to one of the four admin endpoints that presents no
token, or presents a token differing from the configured admin secret, is
answered — identically across the four endpoints and across the two cases —
with HTTP 401 and body `{ok:false, error:"Unauthorized"}`; the result does
not depend on the store and the store is unchanged. -/
theorem admin_endpoints_reject_bad_token
    (header query : Option String) (adminToken : String)
    (booking_id technician_id : Option String) (tinp : TechInput) (uuid now : String)
    (st : Store)
    (h : presentedToken header query ≠ some adminToken) :
    admin_bookings header query adminToken st = (Resp.err 401 "Unauthorized", st)
    ∧ admin_techs_get header query adminToken st = (Resp.err 401 "Unauthorized", st)
    ∧ admin_techs_post header query adminToken tinp uuid now st = (Resp.err 401 "Unauthorized", st)
    ∧ admin_assign header query adminToken booking_id technician_id st
        = (Resp.err 401 "Unauthorized", st) := by
  have hc : check_admin_token header query adminToken = false := by
    unfold check_admin_token
    cases hp : presentedToken header query with
    | none => rfl
    | some t =>
      rw [hp] at h
      have ht : t ≠ adminToken := fun he => h (by rw [he])
      by_cases h0 : t = ""
      · simp [h0]
      · simp [h0, ht]
  refine ⟨?_, ?_, ?_, ?_⟩ <;>
    simp [admin_bookings, admin_techs_get, admin_techs_post, admin_assign, hc]

/-- Witness for C4 at a concrete input: a wrong query-parameter token and
no header token is rejected by all four endpoints on the fresh store. -/
theorem admin_endpoints_reject_bad_token_witness :
    admin_bookings none (some "wrong") "sek" init_store = (Resp.err 401 "Unauthorized", init_store)
    ∧ admin_techs_get none (some "wrong") "sek" init_store = (Resp.err 401 "Unauthorized", init_store)
    ∧ admin_techs_post none (some "wrong") "sek"
        { name := none, phone := none, areas_csv := none, services_csv := none, owner_name := none }
        "u1" "t1" init_store = (Resp.err 401 "Unauthorized", init_store)
    ∧ admin_assign none (some "wrong") "sek" (some "b") (some "t") init_store
        = (Resp.err 401 "Unauthorized", init_store) :=
  admin_endpoints_reject_bad_token none (some "wrong") "sek" (some "b") (some "t")
    { name := none, phone := none, areas_csv := none, services_csv := none, owner_name := none }
    "u1" "t1" init_store (by decide)

/-! ## Claim C7 -/

/-- C7 counterexample: the source only prepends a bare `+` to a number
starting with `91` when the number has at least 10 characters; the claimed
policy has no length condition, and the two disagree on the 7-character
number `9112345`. -/
theorem normalize_length_counterexample :
    normalize_user_to "9112345" ≠ normalize_user_to_claimC7 "9112345"
    ∧ normalize_user_to "9112345" = "whatsapp:+919112345"
    ∧ normalize_user_to_claimC7 "9112345" = "whatsapp:+9112345" :=
  ⟨by decide, by decide, by decide⟩

/-- C7 amended: the normalized destination is the phone as given when it
starts with `+`; with a `+` prepended when it starts with `91` AND has at
least 10 characters; and with `+91` prepended otherwise — always under the
`whatsapp:` scheme. -/
theorem normalize_policy (phone : String) :
    (strStarts phone "+" = true → normalize_user_to phone = "whatsapp:" ++ phone)
    ∧ (strStarts phone "+" = false → strStarts phone "91" = true → 10 ≤ strLen phone →
        normalize_user_to phone = "whatsapp:+" ++ phone)
    ∧ (strStarts phone "+" = false → ¬ (strStarts phone "91" = true ∧ 10 ≤ strLen phone) →
        normalize_user_to phone = "whatsapp:+91" ++ phone) := by
  unfold normalize_user_to
  refine ⟨fun h => by rw [if_pos h], fun h1 h2 h3 => ?_, fun h1 h2 => ?_⟩
  · rw [if_neg (by simp [h1]), if_pos ⟨h2, h3⟩]
  · rw [if_neg (by simp [h1]), if_neg h2]

/-- Witness for the three branches of the amended C7 at concrete inputs. -/
theorem normalize_policy_witness :
    normalize_user_to "+15550001" = "whatsapp:+15550001"
    ∧ normalize_user_to "9198765432" = "whatsapp:+9198765432"
    ∧ normalize_user_to "98765" = "whatsapp:+9198765" :=
  ⟨(normalize_policy "+15550001").1 (by decide),
   (normalize_policy "9198765432").2.1 (by decide) (by decide) (by decide),
   (normalize_policy "98765").2.2 (by decide) (by decide)⟩

/-! ## Claim C10 -/

/-- C10: an admin-authorised `POST /admin/technicians` whose generated uuid
is fresh always succeeds with `{ok:true, id}` and appends a technician row
built from the unvalidated body: in particular a body omitting `name` and
`phone` yields a row whose `name` and `phone` columns are NULL. -/
theorem tech_create_no_validation
    (header query : Option String) (adminToken : String) (inp : TechInput)
    (uuid now : String) (st : Store)
    (hauth : check_admin_token header query adminToken = true)
    (hfresh : ∀ t ∈ st.technicians, t.id ≠ uuid) :
    admin_techs_post header query adminToken inp uuid now st
      = (Resp.ok uuid,
         { st with technicians := st.technicians ++
             [{ id := uuid, name := inp.name, phone := inp.phone,
                areas_csv := inp.areas_csv.getD "", services_csv := inp.services_csv.getD "",
                owner_name := inp.owner_name.getD "", created_at := now }] }) := by
  have h1 : ¬ (check_admin_token header query adminToken = false) := by rw [hauth]; simp
  have h2 : ¬ ((st.technicians.find? (fun t => decide (t.id = uuid))).isSome = true) := by
    rw [find_tech_none st.technicians uuid hfresh]
    simp
  simp only [admin_techs_post]
  rw [if_neg h1, if_neg h2]

/-- Witness for C10 at a concrete input: an empty JSON body still creates
a technician, with NULL name and phone. -/
theorem tech_create_no_validation_witness :
    admin_techs_post (some "sek") none "sek"
        { name := none, phone := none, areas_csv := none, services_csv := none, owner_name := none }
        "uuid-1" "t1" init_store
      = (Resp.ok "uuid-1",
         { init_store with technicians :=
             [{ id := "uuid-1", name := none, phone := none, areas_csv := "",
                services_csv := "", owner_name := "", created_at := "t1" }] }) :=
  tech_create_no_validation (some "sek") none "sek"
    { name := none, phone := none, areas_csv := none, services_csv := none, owner_name := none }
    "uuid-1" "t1" init_store (by decide) (by decide)

/-! ## Claim C1 -/

/-- C1 counterexample: an authorised assignment of a non-existent booking
id on the fresh store does not produce any `NotFound` (404) error response
— it raises out of the handler (HTTP 500, `Resp.crash`) at the `b['id']`
subscript of the `None` re-fetch; the bookings table is unchanged. -/
theorem assign_missing_booking_counterexample :
    (∀ msg : String,
      (admin_assign (some "sek") none "sek" (some "nope") (some "T1") init_store).1
        ≠ Resp.err 404 msg)
    ∧ (admin_assign (some "sek") none "sek" (some "nope") (some "T1") init_store).1 = Resp.crash
    ∧ (admin_assign (some "sek") none "sek" (some "nope") (some "T1") init_store).2
        = init_store := by
  have hc : (admin_assign (some "sek") none "sek" (some "nope") (some "T1") init_store).1
      = Resp.crash := by decide
  refine ⟨?_, hc, by decide⟩
  intro msg h
  rw [hc] at h
  exact Resp.noConfusion h

/-- C1 amended: an authorised `POST /admin/assign` with both ids present
whose booking id matches no booking fails — with an unhandled exception
propagating out of the handler (HTTP 500), not with a structured NotFound
response — and the store, in particular the bookings table, is left
unchanged. -/
theorem assign_missing_booking_crashes_no_write
    (header query : Option String) (adminToken : String)
    (booking_id technician_id : Option String) (st : Store)
    (hauth : check_admin_token header query adminToken = true)
    (hbid : pyTruthyStr booking_id = true)
    (htid : pyTruthyStr technician_id = true)
    (hmiss : ∀ b ∈ st.bookings, b.id ≠ booking_id.getD "") :
    admin_assign header query adminToken booking_id technician_id st = (Resp.crash, st) := by
  have h1 : ¬ (check_admin_token header query adminToken = false) := by rw [hauth]; simp
  have h2 : ¬ (pyTruthyStr booking_id = false ∨ pyTruthyStr technician_id = false) := by
    rw [hbid, htid]; simp
  simp only [admin_assign]
  rw [if_neg h1, if_neg h2]
  simp only [assigned_bookings_id _ _ _ hmiss, find_booking_none _ _ hmiss]

/-- Witness for the amended C1 at a concrete input. -/
theorem assign_missing_booking_crashes_no_write_witness :
    admin_assign (some "sek") (some "q") "sek" (some "missing") (some "T9") init_store
      = (Resp.crash, init_store) :=
  assign_missing_booking_crashes_no_write (some "sek") (some "q") "sek" (some "missing")
    (some "T9") init_store (by decide) (by decide) (by decide) (by decide)

/-! ## Claim C2 -/

/-- C2 counterexample: the referential-integrity invariant fails on a
reachable state.  From the fresh store, one valid booking followed by an
authorised assignment to the non-existent technician id `ghost` reaches a
state whose booking carries `assigned_to = ghost` while the technicians
table is empty. -/
theorem assigned_to_dangling_counterexample :
    ¬ (∀ st : Store, Reachable st → ∀ b ∈ st.bookings, ∀ tid : String,
        b.assigned_to = some tid → ∃ t ∈ st.technicians, t.id = tid) := by
  intro hclaim
  have hreach : Reachable exSt2 :=
    Reachable.assign (some "sek") none "sek" (some "4U-aaaa0001") (some "ghost")
      (Reachable.book exInput "aaaa0001" "t0" "" twOff Reachable.init)
  have hbex : ∃ b ∈ exSt2.bookings, b.assigned_to = some "ghost" := by decide
  obtain ⟨b, hbmem, hba⟩ := hbex
  obtain ⟨t, ht, _⟩ := hclaim exSt2 hreach b hbmem "ghost" hba
  have htech : exSt2.technicians = [] := by decide
  rw [htech] at ht
  exact (List.not_mem_nil t) ht

/-- C2 amended: the workflow does not validate the technician reference —
an authorised assignment of an existing booking records the given
`technician_id` even when no technician with that id exists, so the
resulting booking's `assigned_to` may reference a technician absent from
the technicians table. -/
theorem assign_records_unvalidated_technician
    (header query : Option String) (adminToken : String)
    (booking_id technician_id : Option String) (st : Store)
    (hauth : check_admin_token header query adminToken = true)
    (hbid : pyTruthyStr booking_id = true)
    (htid : pyTruthyStr technician_id = true)
    (hexists : ∃ b ∈ st.bookings, b.id = booking_id.getD "")
    (hnotech : ∀ t ∈ st.technicians, t.id ≠ technician_id.getD "") :
    ∃ b2, ((admin_assign header query adminToken booking_id technician_id st).2).bookings.find?
        (fun b => decide (b.id = booking_id.getD "")) = some b2
      ∧ b2.assigned_to = some (technician_id.getD "")
      ∧ ∀ t ∈ ((admin_assign header query adminToken booking_id technician_id st).2).technicians,
          t.id ≠ technician_id.getD "" := by
  obtain ⟨b2, hf, hs, ha, hid, heq⟩ :=
    admin_assign_success header query adminToken booking_id technician_id st hauth hbid htid hexists
  refine ⟨b2, ?_, ha, ?_⟩
  · rw [heq]
    exact hf
  · rw [heq]
    exact hnotech

/-- Witness for the amended C2 at a concrete input: assigning the only
booking of `exSt1` to the non-existent technician `ghost` records the
dangling reference. -/
theorem assign_records_unvalidated_technician_witness :
    ∃ b2, ((admin_assign (some "sek") none "sek" (some "4U-aaaa0001") (some "ghost") exSt1).2).bookings.find?
        (fun b => decide (b.id = "4U-aaaa0001")) = some b2
      ∧ b2.assigned_to = some "ghost"
      ∧ ∀ t ∈ ((admin_assign (some "sek") none "sek" (some "4U-aaaa0001") (some "ghost") exSt1).2).technicians,
          t.id ≠ "ghost" :=
  assign_records_unvalidated_technician (some "sek") none "sek" (some "4U-aaaa0001")
    (some "ghost") exSt1 (by decide) (by decide) (by decide) (by decide) (by decide)

/-! ## Claim C5 -/

/-- C5: an authorised assignment of an existing booking `b` — whatever its
current status or assignee — succeeds with `{ok:true}`, and a subsequent
read of `b` shows `status = "assigned"` and `assigned_to = t`; a repeated
call on the result with a different technician id overwrites the
assignee the same way. -/
theorem assign_success_sets_status_and_assignee
    (header query : Option String) (adminToken : String)
    (booking_id technician_id : Option String) (st : Store)
    (hauth : check_admin_token header query adminToken = true)
    (hbid : pyTruthyStr booking_id = true)
    (htid : pyTruthyStr technician_id = true)
    (hexists : ∃ b ∈ st.bookings, b.id = booking_id.getD "") :
    (∃ wa, (admin_assign header query adminToken booking_id technician_id st).1 = Resp.ok wa)
    ∧ (∃ b2, ((admin_assign header query adminToken booking_id technician_id st).2).bookings.find?
        (fun b => decide (b.id = booking_id.getD "")) = some b2
        ∧ b2.status = "assigned" ∧ b2.assigned_to = some (technician_id.getD ""))
    ∧ (∀ technician_id2 : Option String, pyTruthyStr technician_id2 = true →
        ∃ b3, ((admin_assign header query adminToken booking_id technician_id2
            ((admin_assign header query adminToken booking_id technician_id st).2)).2).bookings.find?
            (fun b => decide (b.id = booking_id.getD "")) = some b3
          ∧ b3.status = "assigned" ∧ b3.assigned_to = some (technician_id2.getD "")) := by
  obtain ⟨b2, hf, hs, ha, hid, heq⟩ :=
    admin_assign_success header query adminToken booking_id technician_id st hauth hbid htid hexists
  refine ⟨⟨_, by rw [heq]⟩, ⟨b2, by rw [heq]; exact hf, hs, ha⟩, ?_⟩
  intro technician_id2 htid2
  have hexists2 : ∃ b ∈ ((admin_assign header query adminToken booking_id technician_id st).2).bookings,
      b.id = booking_id.getD "" := by
    rw [heq]
    exact ⟨b2, List.mem_of_find?_eq_some hf, hid⟩
  obtain ⟨b3, hf3, hs3, ha3, hid3, heq3⟩ :=
    admin_assign_success header query adminToken booking_id technician_id2 _ hauth hbid htid2 hexists2
  exact ⟨b3, by rw [heq3]; exact hf3, hs3, ha3⟩

/-- Witness for C5 at a concrete input: assigning (then re-assigning) the
only booking of `exSt1`. -/
theorem assign_success_sets_status_and_assignee_witness :
    (∃ wa, (admin_assign (some "sek") none "sek" (some "4U-aaaa0001") (some "T1") exSt1).1 = Resp.ok wa)
    ∧ (∃ b2, ((admin_assign (some "sek") none "sek" (some "4U-aaaa0001") (some "T1") exSt1).2).bookings.find?
        (fun b => decide (b.id = "4U-aaaa0001")) = some b2
        ∧ b2.status = "assigned" ∧ b2.assigned_to = some "T1")
    ∧ (∀ technician_id2 : Option String, pyTruthyStr technician_id2 = true →
        ∃ b3, ((admin_assign (some "sek") none "sek" (some "4U-aaaa0001") technician_id2
            ((admin_assign (some "sek") none "sek" (some "4U-aaaa0001") (some "T1") exSt1).2)).2).bookings.find?
            (fun b => decide (b.id = "4U-aaaa0001")) = some b3
          ∧ b3.status = "assigned" ∧ b3.assigned_to = some (technician_id2.getD "")) :=
  assign_success_sets_status_and_assignee (some "sek") none "sek" (some "4U-aaaa0001")
    (some "T1") exSt1 (by decide) (by decide) (by decide) (by decide)

/-! ## Claim C9 -/

/-- C9: an authorised assignment of an existing booking to a technician id
matching no technician record still succeeds, answering `{ok:true}` with an
empty `wa_link` rather than failing. -/
theorem assign_missing_technician_degrades
    (header query : Option String) (adminToken : String)
    (booking_id technician_id : Option String) (st : Store)
    (hauth : check_admin_token header query adminToken = true)
    (hbid : pyTruthyStr booking_id = true)
    (htid : pyTruthyStr technician_id = true)
    (hexists : ∃ b ∈ st.bookings, b.id = booking_id.getD "")
    (hnotech : ∀ t ∈ st.technicians, t.id ≠ technician_id.getD "") :
    (admin_assign header query adminToken booking_id technician_id st).1 = Resp.ok "" := by
  obtain ⟨b2, hf, hs, ha, hid, heq⟩ :=
    admin_assign_success header query adminToken booking_id technician_id st hauth hbid htid hexists
  rw [heq]
  show Resp.ok (assign_wa_link
      { st with bookings := assigned_bookings (booking_id.getD "") (technician_id.getD "") st.bookings }
      b2 (technician_id.getD "")) = Resp.ok ""
  simp only [assign_wa_link]
  rw [show ({ st with bookings := assigned_bookings (booking_id.getD "") (technician_id.getD "") st.bookings } : Store).technicians
      = st.technicians from rfl]
  rw [find_tech_none st.technicians (technician_id.getD "") hnotech]
  rfl

/-- Witness for C9 at a concrete input: assigning the only booking of
`exSt1` to the absent technician id `T1` answers `ok` with an empty
link. -/
theorem assign_missing_technician_degrades_witness :
    (admin_assign (some "sek") none "sek" (some "4U-aaaa0001") (some "T1") exSt1).1
      = Resp.ok "" :=
  assign_missing_technician_degrades (some "sek") none "sek" (some "4U-aaaa0001") (some "T1")
    exSt1 (by decide) (by decide) (by decide) (by decide) (by decide)

/-! ## Claim C6 -/

/-- Shape of a successful `create_booking`: valid stripped fields, present
service id and a fresh generated id always commit the new row and answer
`200` with the deep-link and the best-effort `twilio_sent` flag. -/
lemma create_booking_success (inp : BookInput) (uuid8 now adminWh : String) (tw : TwilioEnv)
    (st : Store)
    (hname : ¬ pyStrip (inp.name.getD "") = "")
    (hphone : ¬ pyStrip (inp.phone.getD "") = "")
    (haddr : ¬ pyStrip (inp.address.getD "") = "")
    (hpin : ¬ pyStrip (inp.pincode.getD "") = "")
    (hsid : pyTruthyInt inp.service_id = true)
    (hfresh : ∀ b ∈ st.bookings, b.id ≠ "4U-" ++ uuid8) :
    create_booking inp uuid8 now adminWh tw st
      = (Resp.ok { id := "4U-" ++ uuid8, wa_link := book_wa_link inp uuid8 adminWh,
                   twilio_sent := book_twilio_sent inp uuid8 tw },
         { st with bookings := st.bookings ++ [new_booking inp uuid8 now] }) := by
  have h1 : ¬ (pyStrip (inp.name.getD "") = "" ∨ pyStrip (inp.phone.getD "") = ""
      ∨ pyStrip (inp.address.getD "") = "" ∨ pyStrip (inp.pincode.getD "") = ""
      ∨ pyTruthyInt inp.service_id = false) := by
    simp [hname, hphone, haddr, hpin, hsid]
  have h2 : ¬ ((st.bookings.find? (fun b => decide (b.id = "4U-" ++ uuid8))).isSome = true) := by
    rw [find_booking_none _ _ hfresh]
    simp
  simp only [create_booking]
  rw [if_neg h1, if_neg h2]

/-- The `twilio_sent` flag is `false` whenever the gateway is unconfigured
(no client, or no sending address) or every provider call failed. -/
lemma book_twilio_sent_false (inp : BookInput) (uuid8 : String) (tw : TwilioEnv)
    (h : tw.configured = false ∨ tw.whatsappFrom = ""
      ∨ (tw.sendOutcome1 = false ∧ tw.sendOutcome2 = false)) :
    book_twilio_sent inp uuid8 tw = false := by
  unfold book_twilio_sent
  rcases h with h | h | h
  · have hc : ¬ (tw.configured = true ∧ ¬ tw.whatsappFrom = "") := by
      rw [h]; simp
    rw [if_neg hc]
  · have hc : ¬ (tw.configured = true ∧ ¬ tw.whatsappFrom = "") := fun hc => hc.2 h
    rw [if_neg hc]
  · by_cases hc : tw.configured = true ∧ ¬ tw.whatsappFrom = ""
    · rw [if_pos hc]
      simp [send_whatsapp_via_twilio, h.1, h.2]
    · rw [if_neg hc]

/-- C6: on a valid `POST /api/book`, no notification outcome ever blocks
the creation: for every Twilio environment the handler answers `200`
`{ok:true}` with the new id, the row is persisted in `received` status,
and the dispatch outcome surfaces only as the `twilio_sent` boolean, which
is `false` whenever the gateway is unconfigured or every provider call
failed. -/
theorem booking_survives_provider_failure
    (inp : BookInput) (uuid8 now adminWh : String) (tw : TwilioEnv) (st : Store)
    (hname : ¬ pyStrip (inp.name.getD "") = "")
    (hphone : ¬ pyStrip (inp.phone.getD "") = "")
    (haddr : ¬ pyStrip (inp.address.getD "") = "")
    (hpin : ¬ pyStrip (inp.pincode.getD "") = "")
    (hsid : pyTruthyInt inp.service_id = true)
    (hfresh : ∀ b ∈ st.bookings, b.id ≠ "4U-" ++ uuid8) :
    ∃ p, (create_booking inp uuid8 now adminWh tw st).1 = Resp.ok p
      ∧ (∃ bk ∈ (create_booking inp uuid8 now adminWh tw st).2.bookings,
          bk.id = p.id ∧ bk.status = "received")
      ∧ ((tw.configured = false ∨ tw.whatsappFrom = ""
          ∨ (tw.sendOutcome1 = false ∧ tw.sendOutcome2 = false)) → p.twilio_sent = false) := by
  have heq := create_booking_success inp uuid8 now adminWh tw st hname hphone haddr hpin hsid hfresh
  refine ⟨{ id := "4U-" ++ uuid8, wa_link := book_wa_link inp uuid8 adminWh,
            twilio_sent := book_twilio_sent inp uuid8 tw },
    by rw [heq], ?_, fun h => book_twilio_sent_false inp uuid8 tw h⟩
  rw [heq]
  exact ⟨new_booking inp uuid8 now, by simp, rfl, rfl⟩

/-- Witness for C6 at a concrete input: with the gateway unconfigured the
booking is still created and `twilio_sent` is `false`. -/
theorem booking_survives_provider_failure_witness :
    ∃ p, (create_booking exInput "aaaa0001" "t0" "" twOff init_store).1 = Resp.ok p
      ∧ (∃ bk ∈ (create_booking exInput "aaaa0001" "t0" "" twOff init_store).2.bookings,
          bk.id = p.id ∧ bk.status = "received")
      ∧ ((twOff.configured = false ∨ twOff.whatsappFrom = ""
          ∨ (twOff.sendOutcome1 = false ∧ twOff.sendOutcome2 = false)) → p.twilio_sent = false) :=
  booking_survives_provider_failure exInput "aaaa0001" "t0" "" twOff init_store
    (by decide) (by decide) (by decide) (by decide) (by decide) (by decide)

/-! ## Claim C8 -/

/-- A `POST /api/book` call either leaves the store unchanged (validation
failure or duplicate-key crash) or appends exactly the new row. -/
lemma create_booking_state_cases (inp : BookInput) (uuid8 now adminWh : String)
    (tw : TwilioEnv) (st : Store) :
    (create_booking inp uuid8 now adminWh tw st).2 = st
    ∨ (create_booking inp uuid8 now adminWh tw st).2
        = { st with bookings := st.bookings ++ [new_booking inp uuid8 now] } := by
  simp only [create_booking]
  split
  · exact Or.inl rfl
  · split
    · exact Or.inl rfl
    · exact Or.inr rfl

/-- Booking ids already present in the store survive any further
`POST /api/book` call: no id is ever removed. -/
lemma mem_bookingIds_create (inp : BookInput) (uuid8 now adminWh : String)
    (tw : TwilioEnv) (st : Store) (x : String) (hx : x ∈ bookingIds st) :
    x ∈ bookingIds (create_booking inp uuid8 now adminWh tw st).2 := by
  rcases create_booking_state_cases inp uuid8 now adminWh tw st with h | h
  · rw [h]
    exact hx
  · rw [h]
    have h2 : bookingIds { st with bookings := st.bookings ++ [new_booking inp uuid8 now] }
        = bookingIds st ++ [(new_booking inp uuid8 now).id] := by
      simp [bookingIds]
    rw [h2]
    exact List.mem_append_left _ hx

/-- Inversion of a successful `POST /api/book`: a `200` response means the
returned id is the freshly generated one, that id was not previously in
the store (the primary-key uniqueness check passed), and the new row was
appended. -/
lemma create_booking_ok_inv (inp : BookInput) (uuid8 now adminWh : String)
    (tw : TwilioEnv) (st : Store) (p : BookPayload)
    (h : (create_booking inp uuid8 now adminWh tw st).1 = Resp.ok p) :
    p.id = "4U-" ++ uuid8
    ∧ p.id ∉ bookingIds st
    ∧ (create_booking inp uuid8 now adminWh tw st).2
        = { st with bookings := st.bookings ++ [new_booking inp uuid8 now] } := by
  simp only [create_booking] at h ⊢
  split at h
  next hc1 => exact absurd h (by simp)
  next hc1 =>
    split at h
    next hc2 => exact absurd h (by simp)
    next hc2 =>
      rw [if_neg hc1, if_neg hc2]
      have hp := Resp.ok.inj h
      subst hp
      refine ⟨rfl, ?_, rfl⟩
      intro hmem
      simp only [bookingIds] at hmem
      obtain ⟨b, hb, hbid⟩ := List.mem_map.mp hmem
      have hnone : st.bookings.find? (fun b => decide (b.id = "4U-" ++ uuid8)) = none := by
        cases hfop : st.bookings.find? (fun b => decide (b.id = "4U-" ++ uuid8)) with
        | none => rfl
        | some b2 => exact absurd (by rw [hfop]; rfl) hc2
      exact (List.find?_eq_none.mp hnone) b hb (by simp [hbid])

/-- An id already present in the store is never returned by a later
successful `POST /api/book` of a run: each success requires its id to be
fresh. -/
lemma not_mem_okIds_run (cs : List BookCall) (x : String) :
    ∀ st : Store, x ∈ bookingIds st → x ∉ okIds (runBookings cs st).1 := by
  induction cs with
  | nil =>
    intro st hx hmem
    simp [runBookings, okIds] at hmem
  | cons c cs ih =>
    intro st hx hmem
    simp only [runBookings] at hmem
    cases hr : (create_booking c.input c.uuid8 c.now c.adminWh c.tw st).1 with
    | ok p =>
      rw [hr] at hmem
      simp only [okIds, List.filterMap_cons] at hmem
      rcases List.mem_cons.mp hmem with h1 | h1
      · obtain ⟨hpid, hnot, hst⟩ := create_booking_ok_inv _ _ _ _ _ _ _ hr
        rw [h1] at hx
        exact hnot hx
      · exact ih _ (mem_bookingIds_create _ _ _ _ _ _ _ hx) h1
    | err n s =>
      rw [hr] at hmem
      simp only [okIds, List.filterMap_cons] at hmem
      exact ih _ (mem_bookingIds_create _ _ _ _ _ _ _ hx) hmem
    | crash =>
      rw [hr] at hmem
      simp only [okIds, List.filterMap_cons] at hmem
      exact ih _ (mem_bookingIds_create _ _ _ _ _ _ _ hx) hmem

/-- The ids returned by the successful calls of any run are pairwise
distinct: a success inserts its id under the `PRIMARY KEY` constraint, so
a later duplicate could not succeed. -/
lemma okIds_nodup_run (cs : List BookCall) : ∀ st : Store, (okIds (runBookings cs st).1).Nodup := by
  induction cs with
  | nil =>
    intro st
    simp [runBookings, okIds]
  | cons c cs ih =>
    intro st
    simp only [runBookings]
    cases hr : (create_booking c.input c.uuid8 c.now c.adminWh c.tw st).1 with
    | ok p =>
      simp only [okIds, List.filterMap_cons]
      rw [List.nodup_cons]
      refine ⟨?_, ih _⟩
      obtain ⟨hpid, hnot, hst⟩ := create_booking_ok_inv _ _ _ _ _ _ _ hr
      have hmem2 : p.id ∈ bookingIds (create_booking c.input c.uuid8 c.now c.adminWh c.tw st).2 := by
        rw [hst]
        simp [bookingIds, hpid, new_booking]
      exact not_mem_okIds_run cs p.id _ hmem2
    | err n s =>
      simp only [okIds, List.filterMap_cons]
      exact ih _
    | crash =>
      simp only [okIds, List.filterMap_cons]
      exact ih _

/-- When every response of a run is a success, each call contributes
exactly one id. -/
lemma okIds_length_of_all_ok (rs : List (Resp BookPayload))
    (h : ∀ r ∈ rs, isOk r = true) :
    (okIds rs).length = rs.length := by
  induction rs with
  | nil => rfl
  | cons r rs ih =>
    cases r with
    | ok p =>
      simp only [okIds, List.filterMap_cons, List.length_cons]
      have := ih (fun r hr => h r (List.mem_cons_of_mem _ hr))
      simp only [okIds] at this
      simp [this]
    | err n s => exact absurd (h _ (List.mem_cons_self _ _)) (by simp [isOk])
    | crash => exact absurd (h _ (List.mem_cons_self _ _)) (by simp [isOk])

/-- A run answers one response per call. -/
lemma runBookings_length (cs : List BookCall) :
    ∀ st : Store, (runBookings cs st).1.length = cs.length := by
  induction cs with
  | nil =>
    intro st
    rfl
  | cons c cs ih =>
    intro st
    simp only [runBookings, List.length_cons, ih]

/-- C8: over any sequence of at most 10000 sequential `POST /api/book`
calls that all succeed, the returned booking ids are pairwise distinct
(and there is exactly one id per call). -/
theorem booking_ids_pairwise_distinct (cs : List BookCall) (st : Store)
    (hlen : cs.length ≤ 10000)
    (hok : ∀ r ∈ (runBookings cs st).1, isOk r = true) :
    (okIds (runBookings cs st).1).Nodup
    ∧ (okIds (runBookings cs st).1).length = cs.length := by
  refine ⟨okIds_nodup_run cs st, ?_⟩
  rw [okIds_length_of_all_ok _ hok, runBookings_length cs st]

/-- Witness for C8 at a concrete input: two sequential valid calls on the
fresh store succeed with distinct ids. -/
theorem booking_ids_pairwise_distinct_witness :
    (okIds (runBookings exCalls init_store).1).Nodup
    ∧ (okIds (runBookings exCalls init_store).1).length = exCalls.length :=
  booking_ids_pairwise_distinct exCalls init_store (by decide) (by decide)

end FourU
